import Mathlib

/-
  Verification development for the desktop overlay manager
  (desktop_overlay_manager/__init__.py and desktop_overlay_manager/overlay.py),
  shallowly embedded: pure data and state-passing translations of the
  configuration store, the pointer-interaction handlers of the overlay
  widgets, the registration API and the queue-draining dispatcher loop.
-/

/-- JSON values as produced by json.load; numbers are modelled as integers
(the persisted geometry fields are always written as Python ints). -/
inductive Json where
  | null : Json
  | bool : Bool → Json
  | num : Int → Json
  | str : String → Json
  | arr : List Json → Json
  | obj : List (String × Json) → Json
deriving Repr, BEq

/-- Whether a value is a JSON object (Python isinstance(data, dict)). -/
def Json.isObj : Json → Bool
  | .obj _ => true
  | _ => false

/-- First-match lookup in an association list standing for a parsed JSON
object (json.load keeps the last duplicate key, so parsed objects are
assumed key-unique). -/
def lookupJ : List (String × Json) → String → Option Json
  | [], _ => none
  | (k, v) :: rest, key => if k = key then some v else lookupJ rest key

/-- Generic association-list lookup for the manager's id-indexed maps. -/
def lookupAssoc {α : Type} : List (String × α) → String → Option α
  | [], _ => none
  | (k, v) :: rest, key => if k = key then some v else lookupAssoc rest key

/-- Association-list update, modelling Python dict assignment d[k] = v. -/
def assocSet {α : Type} : List (String × α) → String → α → List (String × α)
  | [], k, v => [(k, v)]
  | (k', v') :: rest, k, v =>
      if k' = k then (k, v) :: rest else (k', v') :: assocSet rest k v

/-- Observable state of one file on disk: absent; present but failing with
an error the code catches (OSError on read, json.JSONDecodeError on
parse); present but holding bytes that are not valid UTF-8, so reading
raises UnicodeDecodeError — which `except (json.JSONDecodeError, OSError)`
does NOT match; or present with a parsed value. -/
inductive FileState where
  | absent : FileState
  | unreadable : FileState
  | undecodable : FileState
  | content : Json → FileState
deriving Repr, BEq

/-- The three files the config store touches: the unified overlays.json and
the two legacy files rects.json and points.json. -/
structure FS where
  unified : FileState
  legacyRects : FileState
  legacyPoints : FileState
deriving Repr, BEq

/-- path.exists(). -/
def fileExists : FileState → Bool
  | .absent => false
  | .unreadable => true
  | .undecodable => true
  | .content _ => true

/-- Outcome of json.load on an opened file: a parsed value, a failure the
surrounding `except (json.JSONDecodeError, OSError)` clause matches, or a
UnicodeDecodeError those clauses do not match. -/
inductive LoadResult where
  | ok : Json → LoadResult
  | caught : LoadResult
  | uncaught : LoadResult
deriving Repr, BEq

/-- json.load on a file (both call sites check path.exists() first, so the
absent case is never reached; it is mapped to a caught failure). -/
def jsonLoad : FileState → LoadResult
  | .absent => .caught
  | .unreadable => .caught
  | .undecodable => .uncaught
  | .content j => .ok j

/-- Python `data if isinstance(data, dict) else {}`. -/
def dictOf : Json → List (String × Json)
  | .obj kvs => kvs
  | _ => []

/-- Namespace extraction in _load_all_configs:
`data.get(key, {}) if isinstance(data.get(key), dict) else {}`. -/
def nsOf (data : List (String × Json)) (key : String) : List (String × Json) :=
  match lookupJ data key with
  | some (Json.obj kvs) => kvs
  | _ => []

/-- The two-namespace document `{"rects": r, "points": p}`. -/
def encodeDoc (r p : List (String × Json)) : Json :=
  Json.obj [("rects", Json.obj r), ("points", Json.obj p)]

/-- The empty two-namespace document. -/
def emptyDocJson : Json := encodeDoc [] []

/-- Rects namespace of a loaded document. -/
def docRects (j : Json) : List (String × Json) := nsOf (dictOf j) "rects"

/-- Points namespace of a loaded document. -/
def docPoints (j : Json) : List (String × Json) := nsOf (dictOf j) "points"

/-- Desktop_overlay_manager._load_legacy_file: {} when the file is absent,
fails with a caught error (JSONDecodeError / OSError) or is not a JSON
object; the parsed object otherwise. A file with invalid UTF-8 raises
UnicodeDecodeError, which the except clause does not match — the error
propagates. -/
def load_legacy_file : FileState → Except String (List (String × Json))
  | .absent => .ok []
  | .unreadable => .ok []
  | .undecodable => .error "UnicodeDecodeError"
  | .content j => .ok (dictOf j)

/-- The dict _load_legacy_file yields when it does not raise. -/
def legacyDict : FileState → List (String × Json)
  | .absent => []
  | .unreadable => []
  | .undecodable => []
  | .content j => dictOf j

/-- Desktop_overlay_manager._migrate_legacy_configs: loads the two legacy
files in order (an uncaught UnicodeDecodeError from either propagates
before anything is written); None when both loaded dicts are empty (Python
falsiness of {}), otherwise builds the unified document, writes it to the
canonical path (modelled as the unified file becoming that content) and
returns it. -/
def migrate_legacy_configs (fs : FS) : Except String (Option (Json × FS)) :=
  match load_legacy_file fs.legacyRects with
  | .error e => .error e
  | .ok rects =>
      match load_legacy_file fs.legacyPoints with
      | .error e => .error e
      | .ok points =>
          if rects.isEmpty && points.isEmpty then .ok none
          else
            let data := encodeDoc rects points
            .ok (some (data, { fs with unified := .content data }))

/-- Desktop_overlay_manager._load_all_configs: if the unified file exists,
parse it — a caught failure (JSONDecodeError / OSError) or a non-object
top level degrades to {}, while a UnicodeDecodeError from invalid UTF-8
propagates out of the layer — and take each namespace if it is an object,
else {}; if the unified file is absent, attempt legacy migration, else
return the empty document. -/
def load_all_configs (fs : FS) : Except String (Json × FS) :=
  if fileExists fs.unified then
    match jsonLoad fs.unified with
    | .ok d =>
        .ok (encodeDoc (nsOf (dictOf d) "rects") (nsOf (dictOf d) "points"), fs)
    | .caught => .ok (encodeDoc (nsOf [] "rects") (nsOf [] "points"), fs)
    | .uncaught => .error "UnicodeDecodeError"
  else
    match migrate_legacy_configs fs with
    | .ok (some (doc, fs')) => .ok (doc, fs')
    | .ok none => .ok (emptyDocJson, fs)
    | .error e => .error e

/-- One step of Desktop_overlay_manager._write_config_file: first the
serialized document is written to the temporary path, then the temporary
file is renamed onto the canonical path (Path.replace). -/
inductive WriteStep where
  | writeTmp : WriteStep
  | rename : WriteStep
deriving Repr, BEq

/-- Contents of the canonical config path and of the temporary path; file
contents are abstracted by the JSON value they parse to. -/
structure WFS where
  canonical : Option Json
  tmp : Option Json
deriving Repr, BEq

/-- Effect of one write-path step on the two files. -/
def applyWriteStep (doc : Json) (fs : WFS) : WriteStep → WFS
  | .writeTmp => { fs with tmp := some doc }
  | .rename => { canonical := fs.tmp, tmp := none }

/-- The complete step sequence of _write_config_file. -/
def write_config_steps : List WriteStep := [WriteStep.writeTmp, WriteStep.rename]

/-- Running an initial segment of the write path: an interruption after n
steps leaves the files as this function describes. -/
def runWriteSteps (doc : Json) (fs : WFS) (l : List WriteStep) : WFS :=
  l.foldl (applyWriteStep doc) fs

/-- Screen dimensions, root.winfo_screenwidth() / winfo_screenheight(). -/
structure Screen where
  width : Int
  height : Int
deriving Repr, DecidableEq

/-- A tkinter pointer event: widget-local x/y and absolute x_root/y_root. -/
structure MouseEvent where
  x : Int
  y : Int
  x_root : Int
  y_root : Int
deriving Repr, DecidableEq

/-- A rectangle-callback invocation payload (x, y, width, height). -/
abbrev RectGeom := Int × Int × Int × Int

/-- A point-callback invocation payload (x, y). -/
abbrev PointGeom := Int × Int

/-- State of a DraggableOverlay widget: geometry, label, feature flags,
interaction mode flags and press anchors, and visibility. The window
position reported by winfo_x/winfo_y is kept equal to x/y (the code keeps
them synchronized through _update_geometry). The update callback wired by
registerRect is modelled by recording its invocation payloads; a raising
callback is caught at the invocation site, so emission still counts. -/
structure DraggableOverlay where
  x : Int
  y : Int
  width : Int
  height : Int
  label : String
  draggable : Bool
  resizable : Bool
  resize_handle_size : Int
  dragging : Bool
  resizing : Bool
  start_x : Int
  start_y : Int
  offset_x : Int
  offset_y : Int
  start_width : Int
  start_height : Int
  visible : Bool
deriving Repr, DecidableEq

/-- DraggableOverlay.__init__: stores the given geometry verbatim (no
minimum-size clamping happens here), clears the interaction flags and
anchors, and starts hidden. -/
def DraggableOverlay.init (x y width height : Int) (label : String)
    (draggable resizable : Bool) (resize_handle_size : Int) : DraggableOverlay :=
  { x := x, y := y, width := width, height := height, label := label,
    draggable := draggable, resizable := resizable,
    resize_handle_size := resize_handle_size,
    dragging := false, resizing := false,
    start_x := 0, start_y := 0, offset_x := 0, offset_y := 0,
    start_width := 0, start_height := 0, visible := false }

/-- DraggableOverlay.show: a no-op when already visible, else creates the
window and becomes visible. -/
def DraggableOverlay.show (o : DraggableOverlay) : DraggableOverlay :=
  if o.visible then o else { o with visible := true }

/-- DraggableOverlay.hide: a no-op when already hidden, else destroys the
window and becomes hidden. -/
def DraggableOverlay.hide (o : DraggableOverlay) : DraggableOverlay :=
  if o.visible then { o with visible := false } else o

/-- DraggableOverlay._notify_callback payload: the current geometry. -/
def DraggableOverlay.geom (o : DraggableOverlay) : RectGeom :=
  (o.x, o.y, o.width, o.height)

/-- DraggableOverlay.update_position: sets x/y unconditionally; when the
overlay is visible and notify is set, the callback fires with the new
geometry. -/
def DraggableOverlay.update_position (o : DraggableOverlay) (x y : Int)
    (notify : Bool) : DraggableOverlay × List RectGeom :=
  let o' := { o with x := x, y := y }
  (o', if o.visible && notify then [o'.geom] else [])

/-- DraggableOverlay.update_size: floors both dimensions at the minimum
size 50, sets them, and when visible and notify is set fires the callback
with the new geometry. -/
def DraggableOverlay.update_size (o : DraggableOverlay) (width height : Int)
    (notify : Bool) : DraggableOverlay × List RectGeom :=
  let w := max 50 width
  let h := max 50 height
  let o' := { o with width := w, height := h }
  (o', if o.visible && notify then [o'.geom] else [])

/-- DraggableOverlay.update_label: sets the label text. -/
def DraggableOverlay.update_label (o : DraggableOverlay) (label : String) :
    DraggableOverlay :=
  { o with label := label }

/-- DraggableOverlay._is_in_resize_handle: the fixed-size square anchored
at the bottom-right corner, only when resizing is enabled. -/
def DraggableOverlay.is_in_resize_handle (o : DraggableOverlay) (x y : Int) : Bool :=
  o.resizable && decide (o.width - o.resize_handle_size ≤ x) &&
    decide (o.height - o.resize_handle_size ≤ y)

/-- DraggableOverlay._on_mouse_press: a press inside the resize handle is
left to the handle's own binding; otherwise, when draggable and not
resizing, enter Dragging and record the pointer's absolute coordinates and
the window position as anchors. -/
def DraggableOverlay.on_mouse_press (o : DraggableOverlay) (e : MouseEvent) :
    DraggableOverlay :=
  if o.is_in_resize_handle e.x e.y then o
  else if o.draggable && !o.resizing then
    { o with dragging := true, start_x := e.x_root, start_y := e.y_root,
             offset_x := o.x, offset_y := o.y }
  else o

/-- DraggableOverlay._on_resize_press: enter Resizing (leaving Dragging),
recording the pointer's absolute coordinates, the current size and the
window position as anchors. -/
def DraggableOverlay.on_resize_press (o : DraggableOverlay) (e : MouseEvent) :
    DraggableOverlay :=
  if !o.resizable then o
  else
    { o with dragging := false, resizing := true,
             start_x := e.x_root, start_y := e.y_root,
             start_width := o.width, start_height := o.height,
             offset_x := o.x, offset_y := o.y }

/-- DraggableOverlay._on_resize_drag: new size = anchor size + pointer
delta, floored at the 50x50 minimum and then capped so the bottom-right
corner stays on screen relative to the anchored top-left; no callback. -/
def DraggableOverlay.on_resize_drag (scr : Screen) (o : DraggableOverlay)
    (e : MouseEvent) : DraggableOverlay :=
  if !o.resizing || !o.resizable then o
  else
    let o := { o with dragging := false }
    let delta_x := e.x_root - o.start_x
    let delta_y := e.y_root - o.start_y
    let new_width := max 50 (o.start_width + delta_x)
    let new_height := max 50 (o.start_height + delta_y)
    let new_width := min new_width (scr.width - o.offset_x)
    let new_height := min new_height (scr.height - o.offset_y)
    { o with width := new_width, height := new_height }

/-- DraggableOverlay._on_mouse_drag_global: while Resizing delegate to the
resize-drag handler; while Dragging compute the pointer delta from the
anchors and clamp the new top-left into the screen; no callback fires. -/
def DraggableOverlay.on_mouse_drag_global (scr : Screen) (o : DraggableOverlay)
    (e : MouseEvent) : DraggableOverlay :=
  if o.resizing then o.on_resize_drag scr e
  else if o.dragging && o.draggable then
    let delta_x := e.x_root - o.start_x
    let delta_y := e.y_root - o.start_y
    let new_x := max 0 (min (o.offset_x + delta_x) (scr.width - o.width))
    let new_y := max 0 (min (o.offset_y + delta_y) (scr.height - o.height))
    { o with x := new_x, y := new_y }
  else o

/-- DraggableOverlay._on_mouse_release_global: ending a resize or a drag
returns to Idle and fires the callback once with the final geometry; a
release in Idle does nothing. -/
def DraggableOverlay.on_mouse_release_global (o : DraggableOverlay) :
    DraggableOverlay × List RectGeom :=
  if o.resizing then
    ({ o with resizing := false, dragging := false }, [o.geom])
  else if o.dragging then
    ({ o with dragging := false, resizing := false }, [o.geom])
  else (o, [])

/-- An abstract pointer event delivered to a rectangle overlay. -/
inductive PEvent where
  | press : MouseEvent → PEvent
  | move : MouseEvent → PEvent
  | release : MouseEvent → PEvent
deriving Repr, DecidableEq

/-- Event dispatch for a rectangle overlay: a press lands on the resize
handle's tag binding when inside the handle region, else on the canvas
binding; motion and release go through the global canvas handlers (the
handle's own drag/release bindings delegate to the same logic). Each step
returns the new widget state and the callback invocations it emitted. -/
def DraggableOverlay.handle (scr : Screen) (o : DraggableOverlay) (ev : PEvent) :
    DraggableOverlay × List RectGeom :=
  match ev with
  | .press e =>
      if o.is_in_resize_handle e.x e.y then (o.on_resize_press e, [])
      else (o.on_mouse_press e, [])
  | .move e => (o.on_mouse_drag_global scr e, [])
  | .release _ => o.on_mouse_release_global

/-- State of a DraggablePoint widget: the point's anchor coordinates,
label, drag flag and anchors, the computed square window size, and
visibility. -/
structure DraggablePoint where
  x : Int
  y : Int
  label : String
  draggable : Bool
  point_size : Int
  label_offset_x : Int
  label_offset_y : Int
  window_size : Int
  dragging : Bool
  start_x : Int
  start_y : Int
  offset_x : Int
  offset_y : Int
  visible : Bool
deriving Repr, DecidableEq

/-- DraggablePoint.__init__: stores the coordinates verbatim and computes
the square window size from the point size and the label offsets. -/
def DraggablePoint.init (x y : Int) (label : String) (draggable : Bool)
    (point_size label_offset_x label_offset_y : Int) : DraggablePoint :=
  let min_size := max 100 (point_size * 4)
  let label_margin := max |label_offset_x| |label_offset_y| + 50
  { x := x, y := y, label := label, draggable := draggable,
    point_size := point_size, label_offset_x := label_offset_x,
    label_offset_y := label_offset_y,
    window_size := max min_size (label_margin * 2),
    dragging := false, start_x := 0, start_y := 0,
    offset_x := 0, offset_y := 0, visible := false }

/-- DraggablePoint.show: a no-op when already visible. -/
def DraggablePoint.show (p : DraggablePoint) : DraggablePoint :=
  if p.visible then p else { p with visible := true }

/-- DraggablePoint.hide: a no-op when already hidden. -/
def DraggablePoint.hide (p : DraggablePoint) : DraggablePoint :=
  if p.visible then { p with visible := false } else p

/-- DraggablePoint._notify_callback payload: the current coordinates. -/
def DraggablePoint.geom (p : DraggablePoint) : PointGeom := (p.x, p.y)

/-- DraggablePoint.update_position: sets x/y unconditionally; when visible
and notify is set, the callback fires with the new coordinates. -/
def DraggablePoint.update_position (p : DraggablePoint) (x y : Int)
    (notify : Bool) : DraggablePoint × List PointGeom :=
  let p' := { p with x := x, y := y }
  (p', if p.visible && notify then [p'.geom] else [])

/-- DraggablePoint.update_label: sets the label text. -/
def DraggablePoint.update_label (p : DraggablePoint) (label : String) :
    DraggablePoint :=
  { p with label := label }

/-- DraggablePoint._on_mouse_press: when draggable, enter Dragging and
record the pointer's absolute coordinates and the window's top-left
(the window is centered on the point, winfo_x = x - window_size // 2). -/
def DraggablePoint.on_mouse_press (p : DraggablePoint) (e : MouseEvent) :
    DraggablePoint :=
  if p.draggable then
    { p with dragging := true, start_x := e.x_root, start_y := e.y_root,
             offset_x := p.x - p.window_size / 2,
             offset_y := p.y - p.window_size / 2 }
  else p

/-- DraggablePoint._on_mouse_drag: clamp the moved window into the screen,
recover the point as the window center, then clamp the point so its disc
stays point_size pixels inside every screen edge; no callback fires. -/
def DraggablePoint.on_mouse_drag (scr : Screen) (p : DraggablePoint)
    (e : MouseEvent) : DraggablePoint :=
  if p.dragging && p.draggable then
    let delta_x := e.x_root - p.start_x
    let delta_y := e.y_root - p.start_y
    let new_window_x := max 0 (min (p.offset_x + delta_x) (scr.width - p.window_size))
    let new_window_y := max 0 (min (p.offset_y + delta_y) (scr.height - p.window_size))
    let new_x := new_window_x + p.window_size / 2
    let new_y := new_window_y + p.window_size / 2
    let new_x := max p.point_size (min new_x (scr.width - p.point_size))
    let new_y := max p.point_size (min new_y (scr.height - p.point_size))
    { p with x := new_x, y := new_y }
  else p

/-- DraggablePoint._on_mouse_release: ending a drag returns to Idle and
fires the callback once with the final coordinates. -/
def DraggablePoint.on_mouse_release (p : DraggablePoint) :
    DraggablePoint × List PointGeom :=
  if p.dragging then ({ p with dragging := false }, [p.geom])
  else (p, [])

/-- UI-thread state of Desktop_overlay_manager: live widgets per id and the
two persisted-config namespaces (records as parsed JSON objects). -/
structure MgrState where
  rects : List (String × DraggableOverlay)
  rect_configs : List (String × List (String × Json))
  points : List (String × DraggablePoint)
  point_configs : List (String × List (String × Json))
deriving Repr

/-- A JSON value used as a Python int; only an actual number is a valid
geometry value, anything else makes the downstream use ill-typed and is
modelled as failure. -/
def pyInt : Json → Option Int
  | .num n => some n
  | _ => none

/-- Geometry-field resolution in registerRect/registerPosition: an explicit
caller argument wins, else the persisted record's value (which must be a
number to be usable as a coordinate), else the hard-coded default. -/
def rectDataField (explicit : Option Int) (config : List (String × Json))
    (key : String) (dflt : Int) : Option Int :=
  match explicit with
  | some v => some v
  | none =>
      match lookupJ config key with
      | some j => pyInt j
      | none => some dflt

/-- Label resolution `label or config.get("label", rect_id)`: a non-empty
explicit label wins (Python string truthiness), else the persisted label
(which must be a string to be usable), else the id itself. -/
def resolveLabel (label : String) (config : List (String × Json))
    (theId : String) : Option String :=
  if label ≠ "" then some label
  else
    match lookupJ config "label" with
    | some (Json.str s) => some s
    | some _ => none
    | none => some theId

/-- DEFAULT_RECT = {"x": 120, "y": 120, "width": 240, "height": 160}. -/
def DEFAULT_RECT_x : Int := 120

/-- DEFAULT_RECT y component. -/
def DEFAULT_RECT_y : Int := 120

/-- DEFAULT_RECT width component. -/
def DEFAULT_RECT_width : Int := 240

/-- DEFAULT_RECT height component. -/
def DEFAULT_RECT_height : Int := 160

/-- Desktop_overlay_manager.registerRect's closure _create, run on the UI
thread: resolve geometry and label per the merge policy; when the id has no
live marker, create one via create_overlay (init with the resolved values,
then show) and store it; when it has one, update its position, size and
label silently (notify=False) and show it. The returned list collects the
update-callback invocations emitted during the call. -/
def registerRect (s : MgrState) (rect_id label : String)
    (x y width height : Option Int) : Option (MgrState × List RectGeom) := do
  let config := (lookupAssoc s.rect_configs rect_id).getD []
  let rx ← rectDataField x config "x" DEFAULT_RECT_x
  let ry ← rectDataField y config "y" DEFAULT_RECT_y
  let rw ← rectDataField width config "width" DEFAULT_RECT_width
  let rh ← rectDataField height config "height" DEFAULT_RECT_height
  let rect_label ← resolveLabel label config rect_id
  match lookupAssoc s.rects rect_id with
  | none =>
      let ov := (DraggableOverlay.init rx ry rw rh rect_label true true 10).show
      pure ({ s with rects := assocSet s.rects rect_id ov }, [])
  | some ov =>
      let (ov, ev1) := ov.update_position rx ry false
      let (ov, ev2) := ov.update_size rw rh false
      let ov := ov.update_label rect_label
      let ov := ov.show
      pure ({ s with rects := assocSet s.rects rect_id ov }, ev1 ++ ev2)

/-- The geometry keys kept by getRect's dict comprehension. -/
def geomKeysRect : List String := ["x", "y", "width", "height"]

/-- The geometry keys kept by getPosition's dict comprehension. -/
def geomKeysPoint : List String := ["x", "y"]

/-- Left-to-right int() conversion of the surviving entries of the dict
comprehension; a non-numeric value raises, modelled as none. -/
def convGeomAux : List (String × Json) → Option (List (String × Int))
  | [] => some []
  | (k, v) :: rest =>
      match pyInt v with
      | some n => (convGeomAux rest).map (fun l => (k, n) :: l)
      | none => none

/-- The dict comprehension `{k: int(v) for k, v in saved.items() if k in
keys}`: the key filter applies first, then each surviving value is
converted with int(). -/
def convGeom (keys : List String) (saved : List (String × Json)) :
    Option (List (String × Int)) :=
  convGeomAux (saved.filter (fun kv => decide (kv.1 ∈ keys)))

/-- Desktop_overlay_manager.getRect's closure _read: live geometry if a
marker exists, else the persisted record's geometry keys converted to int,
else None; a conversion error propagates to the caller. -/
def getRect (s : MgrState) (rect_id : String) :
    Except String (Option (List (String × Int))) :=
  match lookupAssoc s.rects rect_id with
  | some o =>
      .ok (some [("x", o.x), ("y", o.y), ("width", o.width), ("height", o.height)])
  | none =>
      match lookupAssoc s.rect_configs rect_id with
      | some saved =>
          match convGeom geomKeysRect saved with
          | some l => .ok (some l)
          | none => .error "TypeError"
      | none => .ok none

/-- Desktop_overlay_manager.getPosition's closure _read: live coordinates
if a point exists, else the persisted record's x/y keys converted to int,
else None. -/
def getPosition (s : MgrState) (point_id : String) :
    Except String (Option (List (String × Int))) :=
  match lookupAssoc s.points point_id with
  | some p => .ok (some [("x", p.x), ("y", p.y)])
  | none =>
      match lookupAssoc s.point_configs point_id with
      | some saved =>
          match convGeom geomKeysPoint saved with
          | some l => .ok (some l)
          | none => .error "TypeError"
      | none => .ok none

/-- A command queued to the Tk thread: the identity of its Future result
slot, and the outcome of running its closure (a return value or the
exception it raises). -/
structure Cmd (α : Type) where
  fid : Nat
  run : Except String α
deriving Repr

/-- The failure a command receives when the loop has already stopped. -/
def stoppedMsg : String := "Tk loop already stopped"

/-- Desktop_overlay_manager._drain_queue: pops every queued command in FIFO
order; with set_exception each slot is filled with the stopped failure,
otherwise the closure is run and its value or exception is captured into
its own slot, never interrupting the iteration. Returns the slot fillings
in processing order. -/
def drainQueue {α : Type} (set_exception : Bool) (q : List (Cmd α)) :
    List (Nat × Except String α) :=
  q.map (fun c => (c.fid, if set_exception then .error stoppedMsg else c.run))

/-- Desktop_overlay_manager._run_tk_loop over an arrival schedule: while
the stop event is unset, each tick drains the commands queued so far and
lets Tk process events; once stopped, one final drain fills every command
still queued with the stopped failure. -/
def runTkLoop {α : Type} (batches : List (List (Cmd α)))
    (residual : List (Cmd α)) : List (Nat × Except String α) :=
  (batches.map (drainQueue false)).flatten ++ drainQueue true residual

/-- C2 counterexample state: a live overlay wider than the screen, in
Dragging mode (reachable: registerRect places no upper bound on width). -/
def c2cexO : DraggableOverlay :=
  { DraggableOverlay.init 0 0 200 50 "" true true 10 with dragging := true }

/-- A concrete overlay in Dragging mode for the C2 witness. -/
def w2o : DraggableOverlay :=
  { DraggableOverlay.init 10 10 100 80 "" true true 10 with dragging := true }

/-- A concrete overlay in Resizing mode for the C2 witness. -/
def w2r : DraggableOverlay :=
  { DraggableOverlay.init 10 10 100 80 "" true true 10 with
      resizing := true, offset_x := 10, offset_y := 10,
      start_width := 100, start_height := 80 }

/-- A concrete point marker in Dragging mode for the C2 witness. -/
def w2p : DraggablePoint :=
  { DraggablePoint.init 50 50 "" true 8 10 (-25) with dragging := true }

/-- The C5 counterexample filesystem: the unified config file is present
but holds bytes that are not valid UTF-8. -/
def c5fs0 : FS :=
  ⟨FileState.undecodable, FileState.absent, FileState.absent⟩

/-- The C6 counterexample filesystem: unified file absent, legacy
rects.json a readable but empty object, legacy points.json absent. -/
def c6fs0 : FS :=
  ⟨FileState.absent, FileState.content (Json.obj []), FileState.absent⟩

/-- A manager state with one persisted rect record (an x field and a
label, width missing) and no live markers, for the C10 witness. -/
def c10s : MgrState :=
  ⟨[], [("r", [("x", Json.num 3), ("label", Json.str "L")])], [],
   [("p", [("y", Json.num 4)])]⟩

/-- A persisted rectangle record with all four geometry fields and a
label, as written by the update callback. -/
def rectRecord (a b w h : Int) (lbl : String) : List (String × Json) :=
  [("x", Json.num a), ("y", Json.num b), ("width", Json.num w),
   ("height", Json.num h), ("label", Json.str lbl)]

/-- C1 counterexample state: a persisted 30x30 record under id "existing"
and no live marker. -/
def c1s0 : MgrState := ⟨[], [("existing", rectRecord 5 5 30 30 "old")], [], []⟩

/-- The empty manager state used by the C9 counterexample and witness. -/
def c9s0 : MgrState := ⟨[], [], [], []⟩

/-- The manager state after one registerRect("r1", 10, 10, 100, 50) call
on the empty state, for the C9 witness. -/
def w9s1 : MgrState :=
  ⟨[("r1", (DraggableOverlay.init 10 10 100 50 "r1" true true 10).show)], [], [], []⟩

/-
  Helper lemmas (shared across claims).
-/

/-- Looking up the key just written by assocSet returns the new value. -/
theorem lookupAssoc_assocSet {α : Type} (l : List (String × α)) (k : String)
    (v : α) : lookupAssoc (assocSet l k v) k = some v := by
  induction l with
  | nil => simp [assocSet, lookupAssoc]
  | cons hd tl ih =>
      obtain ⟨k', v'⟩ := hd
      by_cases hk : k' = k
      · simp [assocSet, hk, lookupAssoc]
      · simp [assocSet, hk, lookupAssoc, ih]

/-- A successful conversion keeps the keys, in order. -/
theorem convGeomAux_keys (kvs : List (String × Json)) (l : List (String × Int))
    (h : convGeomAux kvs = some l) : l.map Prod.fst = kvs.map Prod.fst := by
  induction kvs generalizing l with
  | nil => simp [convGeomAux] at h; simp [h]
  | cons hd tl ih =>
      obtain ⟨k, v⟩ := hd
      simp only [convGeomAux] at h
      cases hv : pyInt v with
      | none => rw [hv] at h; cases h
      | some n =>
          rw [hv] at h
          cases ht : convGeomAux tl with
          | none => rw [ht] at h; cases h
          | some tl' =>
              rw [ht] at h
              simp only [Option.map_some', Option.some.injEq] at h
              subst h
              simp [ih tl' ht]

/-- Every converted entry comes from an entry of the input with the same
key whose value converts to that integer. -/
theorem convGeomAux_mem (kvs : List (String × Json)) (l : List (String × Int))
    (h : convGeomAux kvs = some l) (k : String) (n : Int) (hm : (k, n) ∈ l) :
    ∃ v, (k, v) ∈ kvs ∧ pyInt v = some n := by
  induction kvs generalizing l with
  | nil => simp [convGeomAux] at h; subst h; cases hm
  | cons hd tl ih =>
      obtain ⟨k', v⟩ := hd
      simp only [convGeomAux] at h
      cases hv : pyInt v with
      | none => rw [hv] at h; cases h
      | some m =>
          rw [hv] at h
          cases ht : convGeomAux tl with
          | none => rw [ht] at h; cases h
          | some tl' =>
              rw [ht] at h
              simp only [Option.map_some', Option.some.injEq] at h
              subst h
              rcases List.mem_cons.mp hm with hhd | htl
              · obtain ⟨hk, hn⟩ := Prod.mk.injEq .. ▸ hhd
                exact ⟨v, by simp [hk.symm], by rw [← hn] at hv; exact hv⟩
              · obtain ⟨w, hw, hpw⟩ := ih tl' ht htl
                exact ⟨w, List.mem_cons_of_mem _ hw, hpw⟩

/-- Mapping fst commutes with filtering on fst. -/
theorem map_fst_filter {α : Type} (p : String → Bool)
    (kvs : List (String × α)) :
    (kvs.filter (fun kv => p kv.1)).map Prod.fst = (kvs.map Prod.fst).filter p := by
  induction kvs with
  | nil => rfl
  | cons hd tl ih =>
      obtain ⟨k, v⟩ := hd
      by_cases hk : p k
      · simp [List.filter, hk, ih]
      · simp [List.filter, hk, ih]

/-- C3: if a closure submitted through the dispatcher raises while
executing on the worker thread, the exception is captured into that
command's own result slot (and hence re-raised by the submitting caller's
blocking future.result()), and the drain continues: every command queued
after the raising one is still executed and receives its own result. -/
theorem claim_C3 {α : Type} (pre post : List (Cmd α)) (c : Cmd α) (e : String)
    (h : c.run = Except.error e) :
    drainQueue false (pre ++ c :: post) =
      drainQueue false pre ++ (c.fid, Except.error e) :: drainQueue false post ∧
    (drainQueue false post).length = post.length ∧
    ∀ i (hi : i < post.length),
      (drainQueue false post).get ⟨i, by simpa [drainQueue] using hi⟩ =
        ((post.get ⟨i, hi⟩).fid, (post.get ⟨i, hi⟩).run) := by
  refine ⟨?_, ?_, ?_⟩
  · simp [drainQueue, h]
  · simp [drainQueue]
  · intro i hi
    simp [drainQueue]

/-- C3 witness: a queue of a raising command followed by a normal one; the
failure is captured and the second command still runs to its own result. -/
theorem claim_C3_witness :
    drainQueue false
        [Cmd.mk 0 (Except.error "boom"), Cmd.mk 1 (Except.ok (42 : Nat))] =
      [(0, Except.error "boom"), (1, Except.ok 42)] := by
  have h := claim_C3 ([] : List (Cmd Nat)) [Cmd.mk 1 (Except.ok 42)]
    (Cmd.mk 0 (Except.error "boom")) "boom" rfl
  exact h.1

/-- C4: the final drain performed when the loop stops fills the result slot
of every command still queued with the "Tk loop already stopped" failure,
so each such blocked caller is delivered a stopped failure rather than
waiting forever. -/
theorem claim_C4 {α : Type} (batches : List (List (Cmd α)))
    (residual : List (Cmd α)) (c : Cmd α) (hc : c ∈ residual) :
    drainQueue true residual =
      residual.map (fun c => (c.fid, Except.error stoppedMsg)) ∧
    (c.fid, Except.error stoppedMsg) ∈ runTkLoop batches residual := by
  refine ⟨rfl, ?_⟩
  have : (c.fid, Except.error stoppedMsg) ∈ drainQueue true residual := by
    simp [drainQueue]
    exact ⟨c, hc, rfl⟩
  exact List.mem_append_right _ this

/-- C4 witness: a command queued at shutdown is resolved with the stopped
failure in the loop's output. -/
theorem claim_C4_witness :
    ((3 : Nat), Except.error stoppedMsg) ∈
      runTkLoop ([[]] : List (List (Cmd Nat))) [Cmd.mk 3 (Except.ok 7)] :=
  (claim_C4 [[]] [Cmd.mk 3 (Except.ok 7)] (Cmd.mk 3 (Except.ok 7)) (by simp)).2

/-- C7: an interruption of the write path after any number of its steps
leaves the canonical path holding either the old complete document or the
new complete document, and the full write path installs the new one. -/
theorem claim_C7 (doc : Json) (fs : WFS) (n : Nat) :
    ((runWriteSteps doc fs (write_config_steps.take n)).canonical = fs.canonical ∨
     (runWriteSteps doc fs (write_config_steps.take n)).canonical = some doc) ∧
    (runWriteSteps doc fs write_config_steps).canonical = some doc := by
  constructor
  · match n with
    | 0 => exact Or.inl rfl
    | 1 => exact Or.inl rfl
    | (k + 2) =>
        right
        simp [write_config_steps, runWriteSteps, applyWriteStep]
  · rfl

/-- C7 witness: interrupting after the temporary-file write leaves the old
document in place, and the full sequence installs the new document. -/
theorem claim_C7_witness :
    ((runWriteSteps (Json.num 1) ⟨some (Json.num 0), none⟩
        (write_config_steps.take 1)).canonical = some (Json.num 0) ∨
     (runWriteSteps (Json.num 1) ⟨some (Json.num 0), none⟩
        (write_config_steps.take 1)).canonical = some (Json.num 1)) ∧
    (runWriteSteps (Json.num 1) ⟨some (Json.num 0), none⟩
        write_config_steps).canonical = some (Json.num 1) :=
  claim_C7 (Json.num 1) ⟨some (Json.num 0), none⟩ 1

/-- C8: no pointer press or pointer move ever invokes the update callback
(in particular moves while Dragging or Resizing stay silent), and a
release that ends a drag or a resize invokes the callback exactly once,
with the final geometry, which the release itself leaves unchanged. -/
theorem claim_C8 (scr : Screen) (o : DraggableOverlay) (e : MouseEvent) :
    (o.handle scr (PEvent.press e)).2 = [] ∧
    (o.handle scr (PEvent.move e)).2 = [] ∧
    (o.dragging = true ∨ o.resizing = true →
      (o.handle scr (PEvent.release e)).2 =
        [(o.handle scr (PEvent.release e)).1.geom] ∧
      (o.handle scr (PEvent.release e)).1.geom = o.geom) := by
  refine ⟨?_, ?_, ?_⟩
  · simp only [DraggableOverlay.handle]
    split <;> rfl
  · rfl
  · intro hmode
    simp only [DraggableOverlay.handle, DraggableOverlay.on_mouse_release_global]
    rcases hmode with hd | hr
    · by_cases hrs : o.resizing
      · simp [hrs, DraggableOverlay.geom]
      · simp [hrs, hd, DraggableOverlay.geom]
    · simp [hr, DraggableOverlay.geom]

/-- C8 witness: a release ending a drag of a concrete overlay emits exactly
one callback invocation carrying the final geometry. -/
theorem claim_C8_witness :
    let o : DraggableOverlay :=
      { DraggableOverlay.init 10 20 100 80 "w" true true 10 with dragging := true }
    (o.handle ⟨1920, 1080⟩ (PEvent.release ⟨0, 0, 0, 0⟩)).2 =
      [(o.handle ⟨1920, 1080⟩ (PEvent.release ⟨0, 0, 0, 0⟩)).1.geom] ∧
    (o.handle ⟨1920, 1080⟩ (PEvent.release ⟨0, 0, 0, 0⟩)).1.geom = o.geom :=
  (claim_C8 ⟨1920, 1080⟩ _ ⟨0, 0, 0, 0⟩).2.2 (Or.inl rfl)

/-- C2 (amended): whenever the marker fits on the screen, every drag step
clamps the rectangle's top-left into [0, screenWidth-width] x
[0, screenHeight-height]; whenever the resize anchor's top-left lies at
least 50 pixels from the right and bottom screen edges, a resize step
never produces a width or height below the 50 floor; and whenever the
point's disc fits on the screen, a point drag keeps the point at least
point_size pixels inside every edge (hence within [0, screenWidth-size] x
[0, screenHeight-size]). -/
theorem claim_C2_amended (scr : Screen) (o : DraggableOverlay)
    (p : DraggablePoint) (e : MouseEvent) :
    (o.resizing = false → o.dragging = true → o.draggable = true →
      o.width ≤ scr.width → o.height ≤ scr.height →
      0 ≤ (o.on_mouse_drag_global scr e).x ∧
      (o.on_mouse_drag_global scr e).x ≤
        scr.width - (o.on_mouse_drag_global scr e).width ∧
      0 ≤ (o.on_mouse_drag_global scr e).y ∧
      (o.on_mouse_drag_global scr e).y ≤
        scr.height - (o.on_mouse_drag_global scr e).height) ∧
    (o.resizing = true → o.resizable = true →
      o.offset_x + 50 ≤ scr.width → o.offset_y + 50 ≤ scr.height →
      50 ≤ (o.on_mouse_drag_global scr e).width ∧
      50 ≤ (o.on_mouse_drag_global scr e).height) ∧
    (p.dragging = true → p.draggable = true →
      0 ≤ p.point_size → 2 * p.point_size ≤ scr.width →
      2 * p.point_size ≤ scr.height →
      0 ≤ (p.on_mouse_drag scr e).x ∧
      (p.on_mouse_drag scr e).x ≤ scr.width - p.point_size ∧
      0 ≤ (p.on_mouse_drag scr e).y ∧
      (p.on_mouse_drag scr e).y ≤ scr.height - p.point_size) := by
  refine ⟨?_, ?_, ?_⟩
  · intro h1 h2 h3 h4 h5
    simp only [DraggableOverlay.on_mouse_drag_global, h1, h2, h3]
    simp only [Bool.false_eq_true, if_false, Bool.and_self, if_true]
    omega
  · intro h1 h2 h3 h4
    simp only [DraggableOverlay.on_mouse_drag_global,
      DraggableOverlay.on_resize_drag, h1, h2]
    simp only [if_true, Bool.not_true, Bool.or_self, Bool.false_eq_true, if_false]
    omega
  · intro h1 h2 h3 h4 h5
    simp only [DraggablePoint.on_mouse_drag, h1, h2, Bool.and_self, if_true]
    omega

/-- C2 is false as stated: on a 100x100 screen, dragging a 200-wide
overlay yields x = 0, which does not satisfy x ≤ screenWidth - width. -/
theorem claim_C2_counterexample :
    c2cexO.dragging = true ∧ c2cexO.draggable = true ∧
    ¬ ((c2cexO.on_mouse_drag_global ⟨100, 100⟩ ⟨0, 0, 0, 0⟩).x ≤
        (100 : Int) - (c2cexO.on_mouse_drag_global ⟨100, 100⟩ ⟨0, 0, 0, 0⟩).width) := by
  refine ⟨rfl, rfl, ?_⟩
  decide

/-- C2 witness: the amended clamping bounds hold at concrete drag, resize
and point-drag states on a 1920x1080 screen. -/
theorem claim_C2_witness :
    (0 ≤ (w2o.on_mouse_drag_global ⟨1920, 1080⟩ ⟨0, 0, 7, 9⟩).x ∧
     (w2o.on_mouse_drag_global ⟨1920, 1080⟩ ⟨0, 0, 7, 9⟩).x ≤
       1920 - (w2o.on_mouse_drag_global ⟨1920, 1080⟩ ⟨0, 0, 7, 9⟩).width ∧
     0 ≤ (w2o.on_mouse_drag_global ⟨1920, 1080⟩ ⟨0, 0, 7, 9⟩).y ∧
     (w2o.on_mouse_drag_global ⟨1920, 1080⟩ ⟨0, 0, 7, 9⟩).y ≤
       1080 - (w2o.on_mouse_drag_global ⟨1920, 1080⟩ ⟨0, 0, 7, 9⟩).height) ∧
    (50 ≤ (w2r.on_mouse_drag_global ⟨1920, 1080⟩ ⟨0, 0, 7, 9⟩).width ∧
     50 ≤ (w2r.on_mouse_drag_global ⟨1920, 1080⟩ ⟨0, 0, 7, 9⟩).height) ∧
    (0 ≤ (w2p.on_mouse_drag ⟨1920, 1080⟩ ⟨0, 0, 7, 9⟩).x ∧
     (w2p.on_mouse_drag ⟨1920, 1080⟩ ⟨0, 0, 7, 9⟩).x ≤ 1920 - w2p.point_size ∧
     0 ≤ (w2p.on_mouse_drag ⟨1920, 1080⟩ ⟨0, 0, 7, 9⟩).y ∧
     (w2p.on_mouse_drag ⟨1920, 1080⟩ ⟨0, 0, 7, 9⟩).y ≤ 1080 - w2p.point_size) := by
  refine ⟨(claim_C2_amended ⟨1920, 1080⟩ w2o w2p ⟨0, 0, 7, 9⟩).1
            rfl rfl rfl (by decide) (by decide),
          (claim_C2_amended ⟨1920, 1080⟩ w2r w2p ⟨0, 0, 7, 9⟩).2.1
            rfl rfl (by decide) (by decide),
          (claim_C2_amended ⟨1920, 1080⟩ w2o w2p ⟨0, 0, 7, 9⟩).2.2
            rfl rfl (by decide) (by decide) (by decide)⟩

/-- A non-object JSON value coerces to the empty dict. -/
theorem dictOf_eq_nil (j : Json) (h : j.isObj = false) : dictOf j = [] := by
  cases j <;> simp_all [Json.isObj, dictOf]

/-- A namespace whose stored value is not an object loads as empty. -/
theorem nsOf_eq_nil (kvs : List (String × Json)) (key : String) (v : Json)
    (h1 : lookupJ kvs key = some v) (h2 : v.isObj = false) :
    nsOf kvs key = [] := by
  unfold nsOf
  rw [h1]
  cases v <;> simp_all [Json.isObj]

/-- The rects namespace of an encoded two-namespace document. -/
theorem docRects_encodeDoc (r p : List (String × Json)) :
    docRects (encodeDoc r p) = r := by
  simp [docRects, encodeDoc, dictOf, nsOf, lookupJ]

/-- The points namespace of an encoded two-namespace document. -/
theorem docPoints_encodeDoc (r p : List (String × Json)) :
    docPoints (encodeDoc r p) = p := by
  simp [docPoints, encodeDoc, dictOf, nsOf, lookupJ]

/-- _load_legacy_file on a decodable file never raises and yields its
dict. -/
theorem load_legacy_file_eq (st : FileState)
    (h : st ≠ FileState.undecodable) :
    load_legacy_file st = Except.ok (legacyDict st) := by
  cases st <;> simp_all [load_legacy_file, legacyDict]

/-- C5 is false as stated: a present unified config file whose bytes are
not valid UTF-8 makes load() raise UnicodeDecodeError past the ConfigStore
layer, because except (json.JSONDecodeError, OSError) does not match it. -/
theorem claim_C5_counterexample :
    fileExists c5fs0.unified = true ∧
    load_all_configs c5fs0 = Except.error "UnicodeDecodeError" := ⟨rfl, rfl⟩

/-- C5 (amended): except for a present file with invalid UTF-8 bytes,
whose UnicodeDecodeError propagates past the layer, load never raises:
every successful result carries both the "rects" and the "points"
namespace; a caught read/parse failure, a non-object top level, or a
non-object namespace value each degrade to an empty namespace, and when
everything is absent or empty the empty two-namespace document is
returned. -/
theorem claim_C5_amended (fs : FS) :
    (fs.unified ≠ FileState.undecodable →
     (fs.unified = FileState.absent → fs.legacyRects ≠ FileState.undecodable) →
     (fs.unified = FileState.absent → fs.legacyPoints ≠ FileState.undecodable) →
     ∃ r p fs', load_all_configs fs = Except.ok (encodeDoc r p, fs')) ∧
    (fs.unified = FileState.unreadable →
      load_all_configs fs = Except.ok (emptyDocJson, fs)) ∧
    (∀ j, fs.unified = FileState.content j → j.isObj = false →
      load_all_configs fs = Except.ok (emptyDocJson, fs)) ∧
    (∀ kvs v, fs.unified = FileState.content (Json.obj kvs) →
      lookupJ kvs "rects" = some v → v.isObj = false →
      load_all_configs fs = Except.ok (encodeDoc [] (nsOf kvs "points"), fs)) ∧
    (∀ kvs v, fs.unified = FileState.content (Json.obj kvs) →
      lookupJ kvs "points" = some v → v.isObj = false →
      load_all_configs fs = Except.ok (encodeDoc (nsOf kvs "rects") [], fs)) ∧
    (fs.unified = FileState.absent →
      fs.legacyRects ≠ FileState.undecodable →
      fs.legacyPoints ≠ FileState.undecodable →
      legacyDict fs.legacyRects = [] → legacyDict fs.legacyPoints = [] →
      load_all_configs fs = Except.ok (emptyDocJson, fs)) ∧
    (fs.unified = FileState.undecodable →
      load_all_configs fs = Except.error "UnicodeDecodeError") := by
  obtain ⟨u, lr, lp⟩ := fs
  refine ⟨?_, ?_, ?_, ?_, ?_, ?_, ?_⟩
  · intro hu hr hp
    cases u with
    | undecodable => exact absurd rfl hu
    | unreadable => exact ⟨_, _, _, rfl⟩
    | content j => exact ⟨_, _, _, rfl⟩
    | absent =>
        have hrd := hr rfl
        have hpd := hp rfl
        simp only [load_all_configs, fileExists, Bool.false_eq_true, if_false]
        unfold migrate_legacy_configs
        rw [load_legacy_file_eq lr hrd, load_legacy_file_eq lp hpd]
        cases hc : (legacyDict lr).isEmpty && (legacyDict lp).isEmpty with
        | true =>
            simp only [hc, if_true]
            exact ⟨[], [], _, rfl⟩
        | false =>
            simp only [hc, Bool.false_eq_true, if_false]
            exact ⟨_, _, _, rfl⟩
  · intro h
    subst h
    rfl
  · intro j h hobj
    subst h
    simp [load_all_configs, fileExists, jsonLoad, dictOf_eq_nil j hobj,
      nsOf, lookupJ, emptyDocJson, encodeDoc]
  · intro kvs v h hv hobj
    subst h
    simp only [load_all_configs, fileExists, jsonLoad, if_true, dictOf]
    rw [nsOf_eq_nil kvs "rects" v hv hobj]
  · intro kvs v h hv hobj
    subst h
    simp only [load_all_configs, fileExists, jsonLoad, if_true, dictOf]
    rw [nsOf_eq_nil kvs "points" v hv hobj]
  · intro h hdr hdp h1 h2
    subst h
    simp only [load_all_configs, fileExists, Bool.false_eq_true, if_false]
    unfold migrate_legacy_configs
    rw [load_legacy_file_eq lr hdr, load_legacy_file_eq lp hdp, h1, h2]
    rfl
  · intro h
    subst h
    rfl

/-- C5 witness: a unified file failing with a caught error still loads to
a document with both namespaces. -/
theorem claim_C5_witness :
    ∃ r p fs', load_all_configs
        ⟨FileState.unreadable, FileState.absent, FileState.absent⟩ =
      Except.ok (encodeDoc r p, fs') :=
  (claim_C5_amended
      ⟨FileState.unreadable, FileState.absent, FileState.absent⟩).1
    (by intro h; exact FileState.noConfusion h)
    (by intro h; exact FileState.noConfusion h)
    (by intro h; exact FileState.noConfusion h)

/-- C6 is false as stated: with the unified file absent and a legacy file
containing a readable (empty) object, the first load performs no migration
and writes nothing — it returns the empty document and leaves the files,
the unified one still absent, unchanged. -/
theorem claim_C6_counterexample :
    c6fs0.unified = FileState.absent ∧
    c6fs0.legacyRects = FileState.content (Json.obj []) ∧
    load_all_configs c6fs0 = Except.ok (emptyDocJson, c6fs0) :=
  ⟨rfl, rfl, rfl⟩

/-- C6 (amended): when the unified file is absent, neither legacy file is
undecodable (a UnicodeDecodeError would propagate before anything is
written), and at least one legacy file holds a readable non-empty object,
the first load migrates both legacy namespaces into one two-namespace
document and writes it to the canonical path; and any load that finds the
unified file present returns a result depending only on its content — the
legacy files are ignored entirely, even if modified, and nothing is
written. -/
theorem claim_C6_amended (fs : FS) (hu : fs.unified = FileState.absent)
    (hdr : fs.legacyRects ≠ FileState.undecodable)
    (hdp : fs.legacyPoints ≠ FileState.undecodable)
    (hne : legacyDict fs.legacyRects ≠ [] ∨ legacyDict fs.legacyPoints ≠ []) :
    load_all_configs fs = Except.ok
      (encodeDoc (legacyDict fs.legacyRects) (legacyDict fs.legacyPoints),
       { fs with unified := FileState.content (encodeDoc (legacyDict fs.legacyRects) (legacyDict fs.legacyPoints)) }) ∧
    (∀ (j : Json) (lr2 lp2 lr' lp' : FileState),
      load_all_configs ⟨FileState.content j, lr2, lp2⟩ =
        Except.ok (encodeDoc (nsOf (dictOf j) "rects") (nsOf (dictOf j) "points"),
          ⟨FileState.content j, lr2, lp2⟩) ∧
      load_all_configs ⟨FileState.content j, lr', lp'⟩ =
        Except.ok (encodeDoc (nsOf (dictOf j) "rects") (nsOf (dictOf j) "points"),
          ⟨FileState.content j, lr', lp'⟩)) := by
  obtain ⟨u, lr, lp⟩ := fs
  subst hu
  have hff : ((legacyDict lr).isEmpty && (legacyDict lp).isEmpty) = false := by
    rcases hne with h | h
    · cases hr : legacyDict lr with
      | nil => exact absurd hr h
      | cons a l => simp [List.isEmpty]
    · cases hp : legacyDict lp with
      | nil => exact absurd hp h
      | cons a l => simp [List.isEmpty]
  constructor
  · simp only [load_all_configs, fileExists, Bool.false_eq_true, if_false]
    unfold migrate_legacy_configs
    rw [load_legacy_file_eq lr hdr, load_legacy_file_eq lp hdp]
    simp only [hff, Bool.false_eq_true, if_false]
  · exact fun j lr2 lp2 lr' lp' => ⟨rfl, rfl⟩

/-- C6 witness: a non-empty legacy rects.json (points.json absent) is
migrated into the unified document on first load, which is then written;
loads that find the unified file present ignore the legacy files. -/
theorem claim_C6_witness :
    load_all_configs ⟨FileState.absent,
        FileState.content (Json.obj [("a", Json.num 1)]), FileState.absent⟩ =
      Except.ok (encodeDoc [("a", Json.num 1)] [],
        ⟨FileState.content (encodeDoc [("a", Json.num 1)] []),
         FileState.content (Json.obj [("a", Json.num 1)]), FileState.absent⟩) := by
  have h := claim_C6_amended
    ⟨FileState.absent, FileState.content (Json.obj [("a", Json.num 1)]),
     FileState.absent⟩
    rfl (by intro h; exact FileState.noConfusion h)
    (by intro h; exact FileState.noConfusion h)
    (Or.inl (by simp [legacyDict, dictOf]))
  exact h.1

/-- A successful dict comprehension keeps exactly the filtered keys and
converts each surviving value with int(). -/
theorem convGeom_props (keys : List String) (saved : List (String × Json))
    (l : List (String × Int)) (h : convGeom keys saved = some l) :
    l.map Prod.fst = (saved.map Prod.fst).filter (fun k => decide (k ∈ keys)) ∧
    (∀ k n, (k, n) ∈ l → ∃ v, (k, v) ∈ saved ∧ pyInt v = some n) := by
  unfold convGeom at h
  constructor
  · rw [convGeomAux_keys _ l h]
    exact map_fst_filter (fun k => decide (k ∈ keys)) saved
  · intro k n hm
    obtain ⟨v, hv, hp⟩ := convGeomAux_mem _ l h k n hm
    exact ⟨v, List.mem_of_mem_filter hv, hp⟩

/-- C10: for an id with a persisted record but no live marker, getRect
returns a mapping holding exactly those of the keys x, y, width, height
present in the record, each value converted to int; the label never
appears, and a geometry key absent from the record is absent from the
result; getPosition behaves the same with keys x, y. -/
theorem claim_C10 (s : MgrState) (theId : String) :
    (∀ saved l,
      lookupAssoc s.rects theId = none →
      lookupAssoc s.rect_configs theId = some saved →
      getRect s theId = Except.ok (some l) →
      l.map Prod.fst =
        (saved.map Prod.fst).filter (fun k => decide (k ∈ geomKeysRect)) ∧
      "label" ∉ l.map Prod.fst ∧
      (∀ k n, (k, n) ∈ l → ∃ v, (k, v) ∈ saved ∧ pyInt v = some n) ∧
      (∀ k, k ∉ saved.map Prod.fst → k ∉ l.map Prod.fst)) ∧
    (∀ saved l,
      lookupAssoc s.points theId = none →
      lookupAssoc s.point_configs theId = some saved →
      getPosition s theId = Except.ok (some l) →
      l.map Prod.fst =
        (saved.map Prod.fst).filter (fun k => decide (k ∈ geomKeysPoint)) ∧
      "label" ∉ l.map Prod.fst ∧
      (∀ k n, (k, n) ∈ l → ∃ v, (k, v) ∈ saved ∧ pyInt v = some n)) := by
  constructor
  · intro saved l hlive hcfg hget
    have hcv : convGeom geomKeysRect saved = some l := by
      unfold getRect at hget
      rw [hlive, hcfg] at hget
      simp only at hget
      cases hc : convGeom geomKeysRect saved with
      | none => rw [hc] at hget; exact absurd hget (by simp)
      | some l' =>
          rw [hc] at hget
          simp only [Except.ok.injEq, Option.some.injEq] at hget
          rw [hget]
    obtain ⟨hkeys, hmem⟩ := convGeom_props geomKeysRect saved l hcv
    refine ⟨hkeys, ?_, hmem, ?_⟩
    · intro hlab
      rw [hkeys] at hlab
      have := (List.mem_filter.mp hlab).2
      simp [geomKeysRect] at this
    · intro k hk hkl
      rw [hkeys] at hkl
      exact hk (List.mem_of_mem_filter hkl)
  · intro saved l hlive hcfg hget
    have hcv : convGeom geomKeysPoint saved = some l := by
      unfold getPosition at hget
      rw [hlive, hcfg] at hget
      simp only at hget
      cases hc : convGeom geomKeysPoint saved with
      | none => rw [hc] at hget; exact absurd hget (by simp)
      | some l' =>
          rw [hc] at hget
          simp only [Except.ok.injEq, Option.some.injEq] at hget
          rw [hget]
    obtain ⟨hkeys, hmem⟩ := convGeom_props geomKeysPoint saved l hcv
    refine ⟨hkeys, ?_, hmem⟩
    intro hlab
    rw [hkeys] at hlab
    have := (List.mem_filter.mp hlab).2
    simp [geomKeysPoint] at this

/-- C10 witness: the persisted-record read of a concrete record keeps only
its x key, converted to int, and never the label. -/
theorem claim_C10_witness :
    ([("x", (3 : Int))].map Prod.fst =
      ([("x", Json.num 3), ("label", Json.str "L")].map Prod.fst).filter
        (fun k => decide (k ∈ geomKeysRect)) ∧
     "label" ∉ [("x", (3 : Int))].map Prod.fst) := by
  have h := (claim_C10 c10s "r").1 [("x", Json.num 3), ("label", Json.str "L")]
    [("x", (3 : Int))] rfl rfl (by rfl)
  exact ⟨h.1, h.2.1⟩

/-- C1 is false as stated: registerRect("existing") with no explicit
geometry creates and shows a marker whose width is the persisted 30 —
it is not clamped up to the 50 minimum. -/
theorem claim_C1_counterexample :
    ∃ s1 o, registerRect c1s0 "existing" "" none none none none = some (s1, []) ∧
      lookupAssoc s1.rects "existing" = some o ∧
      o.width = 30 ∧ ¬ (50 ≤ o.width) := by
  exact ⟨_, _, rfl, rfl, rfl, by decide⟩

/-- C1 (amended): for a persisted record with numeric geometry and a
string label and no live marker, registerRect with no explicit geometry
creates and shows a marker carrying the persisted geometry verbatim — no
minimum-size clamping happens at creation (the 50 floor applies only to
update_size on an already-live marker) — and the persisted label is
preserved as the marker's label. -/
theorem claim_C1_amended (s : MgrState) (theId lbl : String) (a b w h : Int)
    (hlive : lookupAssoc s.rects theId = none)
    (hcfg : lookupAssoc s.rect_configs theId = some (rectRecord a b w h lbl)) :
    ∃ s1 o, registerRect s theId "" none none none none = some (s1, []) ∧
      lookupAssoc s1.rects theId = some o ∧
      o.x = a ∧ o.y = b ∧ o.width = w ∧ o.height = h ∧
      o.label = lbl ∧ o.visible = true := by
  have hreg : registerRect s theId "" none none none none =
      some ({ s with rects := assocSet s.rects theId ((DraggableOverlay.init a b w h lbl true true 10).show) }, []) := by
    unfold registerRect
    rw [hcfg]
    simp [rectDataField, resolveLabel, lookupJ, pyInt, rectRecord, hlive]
  refine ⟨_, _, hreg, lookupAssoc_assocSet _ _ _, ?_, ?_, ?_, ?_, ?_, ?_⟩
  all_goals simp [DraggableOverlay.init, DraggableOverlay.show]

/-- C1 witness: a concrete below-minimum record is carried over verbatim
with its label. -/
theorem claim_C1_witness :
    ∃ s1 o, registerRect c1s0 "existing" "" none none none none = some (s1, []) ∧
      lookupAssoc s1.rects "existing" = some o ∧
      o.x = 5 ∧ o.y = 5 ∧ o.width = 30 ∧ o.height = 30 ∧
      o.label = "old" ∧ o.visible = true :=
  claim_C1_amended c1s0 "existing" "old" 5 5 30 30 rfl rfl

/-- registerRect with all four geometry arguments explicit: the config is
consulted only for the label; the id's live marker is created (init+show)
or silently updated (position, size, label, show) with no callback. -/
theorem registerRect_explicit (s : MgrState) (theId lbl : String)
    (x y w h : Int) (L : String)
    (hL : resolveLabel lbl ((lookupAssoc s.rect_configs theId).getD []) theId = some L) :
    registerRect s theId lbl (some x) (some y) (some w) (some h) =
      match lookupAssoc s.rects theId with
      | none => some ({ s with rects := assocSet s.rects theId ((DraggableOverlay.init x y w h L true true 10).show) }, [])
      | some ov => some ({ s with rects := assocSet s.rects theId ((((ov.update_position x y false).1.update_size w h false).1.update_label L).show) }, []) := by
  unfold registerRect
  cases hlk : lookupAssoc s.rects theId with
  | none => simp [rectDataField, hL, hlk]
  | some ov =>
      simp [rectDataField, hL, hlk, DraggableOverlay.update_position,
        DraggableOverlay.update_size]

/-- The geometry and visibility of an overlay after the silent update
path: position set, size floored at 50, then shown. -/
theorem updated_overlay_geom (ov : DraggableOverlay) (x y w h : Int)
    (L : String) :
    ((((ov.update_position x y false).1.update_size w h false).1.update_label L).show).geom
      = (x, y, max 50 w, max 50 h) ∧
    ((((ov.update_position x y false).1.update_size w h false).1.update_label L).show).visible
      = true := by
  simp only [DraggableOverlay.update_position, DraggableOverlay.update_size,
    DraggableOverlay.update_label, DraggableOverlay.show, DraggableOverlay.geom]
  constructor
  · split <;> rfl
  · split <;> first | rfl | assumption

/-- C9 (amended): two identical registerRect calls with explicit geometry
whose width and height are at least the 50 minimum yield the same final
marker geometry as one call; the second call emits no update-callback
notification and leaves the marker visible. -/
theorem claim_C9_amended (s : MgrState) (theId lbl : String) (x y w h : Int)
    (hw : 50 ≤ w) (hh : 50 ≤ h) (s1 : MgrState) (ev1 : List RectGeom)
    (h1 : registerRect s theId lbl (some x) (some y) (some w) (some h) = some (s1, ev1)) :
    ∃ s2 o1 o2,
      registerRect s1 theId lbl (some x) (some y) (some w) (some h) = some (s2, []) ∧
      lookupAssoc s1.rects theId = some o1 ∧
      lookupAssoc s2.rects theId = some o2 ∧
      o2.geom = o1.geom ∧ o2.visible = true := by
  have hmaxw : max 50 w = w := max_eq_right hw
  have hmaxh : max 50 h = h := max_eq_right hh
  cases hL : resolveLabel lbl ((lookupAssoc s.rect_configs theId).getD []) theId with
  | none =>
      exfalso
      simp [registerRect, rectDataField, hL] at h1
  | some L =>
      rw [registerRect_explicit s theId lbl x y w h L hL] at h1
      cases hlk : lookupAssoc s.rects theId with
      | none =>
          rw [hlk] at h1
          simp only [Option.some.injEq, Prod.mk.injEq] at h1
          obtain ⟨hs1, _⟩ := h1
          have hcfg1 : s1.rect_configs = s.rect_configs := by rw [← hs1]
          have ho1 : lookupAssoc s1.rects theId =
              some ((DraggableOverlay.init x y w h L true true 10).show) := by
            rw [← hs1]
            exact lookupAssoc_assocSet _ _ _
          have hL1 : resolveLabel lbl ((lookupAssoc s1.rect_configs theId).getD []) theId = some L := by
            rw [hcfg1]; exact hL
          rw [registerRect_explicit s1 theId lbl x y w h L hL1, ho1]
          refine ⟨_, _, _, rfl, rfl, lookupAssoc_assocSet _ _ _, ?_, ?_⟩
          · rw [(updated_overlay_geom _ x y w h L).1, hmaxw, hmaxh]
            simp [DraggableOverlay.init, DraggableOverlay.show,
              DraggableOverlay.geom]
          · exact (updated_overlay_geom _ x y w h L).2
      | some ov =>
          rw [hlk] at h1
          simp only [Option.some.injEq, Prod.mk.injEq] at h1
          obtain ⟨hs1, _⟩ := h1
          have hcfg1 : s1.rect_configs = s.rect_configs := by rw [← hs1]
          have ho1 : lookupAssoc s1.rects theId =
              some ((((ov.update_position x y false).1.update_size w h false).1.update_label L).show) := by
            rw [← hs1]
            exact lookupAssoc_assocSet _ _ _
          have hL1 : resolveLabel lbl ((lookupAssoc s1.rect_configs theId).getD []) theId = some L := by
            rw [hcfg1]; exact hL
          rw [registerRect_explicit s1 theId lbl x y w h L hL1, ho1]
          refine ⟨_, _, _, rfl, rfl, lookupAssoc_assocSet _ _ _, ?_, ?_⟩
          · rw [(updated_overlay_geom _ x y w h L).1,
              (updated_overlay_geom ov x y w h L).1]
          · exact (updated_overlay_geom _ x y w h L).2

/-- C9 is false as stated: with explicit width=30 below the minimum floor,
one registerRect call creates a 30-wide marker but the repeated call
clamps it to 50 — the final geometry differs from a single call's. -/
theorem claim_C9_counterexample :
    ∃ s1 s2 o1 o2,
      registerRect c9s0 "r1" "" (some 10) (some 10) (some 30) (some 30) = some (s1, []) ∧
      registerRect s1 "r1" "" (some 10) (some 10) (some 30) (some 30) = some (s2, []) ∧
      lookupAssoc s1.rects "r1" = some o1 ∧
      lookupAssoc s2.rects "r1" = some o2 ∧
      o1.width = 30 ∧ o2.width = 50 := by
  exact ⟨_, _, _, _, rfl, rfl, rfl, rfl, rfl, rfl⟩

/-- C9 witness: repeating a concrete registration with width 100 and
height 50 leaves the geometry identical, emits nothing, and keeps the
marker visible. -/
theorem claim_C9_witness :
    ∃ s2 o1 o2,
      registerRect w9s1 "r1" "" (some 10) (some 10) (some 100) (some 50) = some (s2, []) ∧
      lookupAssoc w9s1.rects "r1" = some o1 ∧
      lookupAssoc s2.rects "r1" = some o2 ∧
      o2.geom = o1.geom ∧ o2.visible = true :=
  claim_C9_amended c9s0 "r1" "" 10 10 100 50 (by decide) (by decide) w9s1 [] rfl
